import Mathlib

/-
Verification of the VegCA cellular-automaton component
(landlab/components/vegetation_ca/CA_Veg_new.py) against its
natural-language specification.

The embedding follows VegCA.update line by line.  Per-cell arrays become
functions out of Fin n; the integer PFT codes of the source are kept as
integer constants; float arrays become rational-valued functions.  The
numpy special values produced by division by zero and by the mean of an
empty array (inf, -inf, NaN) are modelled explicitly by the NpVal type,
since the grass-establishment term Phi_g / (n * ING) can hit them.
Random draws (np.random.rand, np.random.choice) are inputs of the model:
one establishment draw, one mortality draw and one candidate-type draw
per cell.  The source draws one number per bare cell and one per occupied
cell; indexing the draws by cell id is an equivalent parameterization
because only the draws of bare cells are consulted by establishment and
only those of occupied cells by mortality.
-/

/- PFT codes, module constants of CA_Veg_new.py. -/

def GRASS : ℤ := 0

def SHRUB : ℤ := 1

def TREE : ℤ := 2

def BARE : ℤ := 3

def SHRUBSEEDLING : ℤ := 4

def TREESEEDLING : ℤ := 5

namespace VegCA

/-- Constructor parameters of VegCA, stored as the attributes set in
init (field names follow the attribute names of the source). -/
structure Params where
  Pemaxg : ℚ
  INg : ℚ
  th_g : ℚ
  Pmb_g : ℚ
  Pemaxsh : ℚ
  th_sh : ℚ
  Pmb_sh : ℚ
  tpmax_sh : ℚ
  Pemaxtr : ℚ
  th_tr : ℚ
  Pmb_tr : ℚ
  tpmax_tr : ℚ
  th_sh_s : ℚ
  Pmb_sh_s : ℚ
  tpmax_sh_s : ℚ
  th_tr_s : ℚ
  Pmb_tr_s : ℚ
  tpmax_tr_s : ℚ

/-- The external NeighborhoodProvider: grid.get_looped_cell_neighbor_list
and grid.get_second_ring_looped_cell_neighbor_list, as ready-made neighbor
lists per cell. -/
structure Grid (n : ℕ) where
  firstRing : Fin n → List (Fin n)
  secondRing : Fin n → List (Fin n)

/-- The per-cell fields read and written by update: the label array
vegetation__plant_functional_type, the age array plant__age, and the
input field soil_moisture__water_stress_cumulative. -/
structure State (n : ℕ) where
  vegType : Fin n → ℤ
  age : Fin n → ℚ
  cumWS : Fin n → ℚ

/-- Outcome of np.random.choice([GRASS, SHRUBSEEDLING, TREESEEDLING]):
the candidate type drawn for a bare cell. -/
inductive EstPick where
  | grass : EstPick
  | shrubSeed : EstPick
  | treeSeed : EstPick
deriving DecidableEq

/-- The random draws consumed by one update call: the candidate-type draw
Select_PFT_E, the establishment draw R_Est and the mortality draw R_Mor. -/
structure Draws (n : ℕ) where
  select : Fin n → EstPick
  rEst : Fin n → ℚ
  rMor : Fin n → ℚ

/-- Everything one update call reads: parameters, grid topology, the
time_elapsed argument, the random draws and the current state. -/
structure Input (n : ℕ) where
  p : Params
  g : Grid n
  te : ℚ
  d : Draws n
  s : State n

/-- A numpy floating value as far as this component can produce one:
an ordinary (rational) number, or one of the special values +inf, -inf,
NaN that arise from division by zero and from the mean of an empty
array. -/
inductive NpVal where
  | finite : ℚ → NpVal
  | pinf : NpVal
  | ninf : NpVal
  | nan : NpVal
deriving DecidableEq

/-- Numpy division of finite q by finite d: q / 0 is +inf, -inf or NaN
according to the sign of q. -/
def npDivQ (q d : ℚ) : NpVal :=
  if d = 0 then (if 0 < q then NpVal.pinf else if q < 0 then NpVal.ninf else NpVal.nan)
  else NpVal.finite (q / d)

/-- np.amin of a pair whose second component is finite; NaN propagates. -/
def npMin : NpVal → ℚ → NpVal
  | NpVal.finite a, q => NpVal.finite (min a q)
  | NpVal.pinf, q => NpVal.finite q
  | NpVal.ninf, _ => NpVal.ninf
  | NpVal.nan, _ => NpVal.nan

/-- np.greater_equal against a finite number; any comparison with NaN is
false. -/
def npGe : NpVal → ℚ → Bool
  | NpVal.finite a, r => decide (r ≤ a)
  | NpVal.pinf, _ => true
  | NpVal.ninf, _ => false
  | NpVal.nan, _ => false

/-- Helper count of CA_Veg_new.py: how many entries of a neighbor list
carry a given label.  The source counts per row of a 2D array; here the
row is the neighbor list of one cell. -/
def count {n : ℕ} (vt : Fin n → ℤ) (value : ℤ) (neigh : List (Fin n)) : ℕ :=
  (neigh.filter (fun j => decide (vt j = value))).length

/-- Helper WS_PFT of CA_Veg_new.py: sum of the live indices of the
neighbors carrying a given label (one row of the 2D reduction of the
source). -/
def WS_PFT {n : ℕ} (vt : Fin n → ℤ) (plantType : ℤ) (live : Fin n → ℚ)
    (neigh : List (Fin n)) : ℚ :=
  (neigh.map (fun j => if vt j = plantType then live j else 0)).sum

/-- Plant live index, line 254: live_index = 1 - CumWS. -/
def liveIndex {n : ℕ} (I : Input n) (c : Fin n) : ℚ := 1 - I.s.cumWS c

/-- Labels after the maturation phase (lines 242 to 249): a seedling
whose advanced age self.tp = age + time_elapsed strictly exceeds its
seedling maximum age becomes the adult type. -/
def vt1 {n : ℕ} (I : Input n) (c : Fin n) : ℤ :=
  if I.s.vegType c = SHRUBSEEDLING ∧ I.p.tpmax_sh_s < I.s.age c + I.te then SHRUB
  else if I.s.vegType c = TREESEEDLING ∧ I.p.tpmax_tr_s < I.s.age c + I.te then TREE
  else I.s.vegType c

/-- Ages after the maturation phase (lines 239, 250, 251): ages advance
by time_elapsed, and matured seedlings are reset to 0. -/
def tp1 {n : ℕ} (I : Input n) (c : Fin n) : ℚ :=
  if (I.s.vegType c = SHRUBSEEDLING ∧ I.p.tpmax_sh_s < I.s.age c + I.te) ∨
      (I.s.vegType c = TREESEEDLING ∧ I.p.tpmax_tr_s < I.s.age c + I.te) then 0
  else I.s.age c + I.te

/-- Phi_g, line 269: np.mean of the live index over the cells currently
labeled GRASS; the mean of an empty selection is NaN, encoded none. -/
def phiG {n : ℕ} (I : Input n) : Option ℚ :=
  let gs := (List.finRange n).filter (fun c => decide (vt1 I c = GRASS))
  if gs.length = 0 then none else some ((gs.map (liveIndex I)).sum / gs.length)

/-- Phi_sh, lines 262 and 267: first-ring shrub vigor sum over 8. -/
def phiSh {n : ℕ} (I : Input n) (c : Fin n) : ℚ :=
  WS_PFT (vt1 I) SHRUB (liveIndex I) (I.g.firstRing c) / 8

/-- Phi_tr, lines 263, 264 and 268: first-ring plus half the second-ring
tree vigor sums, over 8. -/
def phiTr {n : ℕ} (I : Input n) (c : Fin n) : ℚ :=
  (WS_PFT (vt1 I) TREE (liveIndex I) (I.g.firstRing c) +
    WS_PFT (vt1 I) TREE (liveIndex I) (I.g.secondRing c) / 2) / 8

/-- Peg, line 273: np.amin of Phi_g / (n * ING) and Pemaxg, where n is
the number of first-ring shrub neighbors; carries the numpy special
values when n = 0 or when Phi_g is NaN. -/
def peg {n : ℕ} (I : Input n) (c : Fin n) : NpVal :=
  match phiG I with
  | none => NpVal.nan
  | some q =>
      npMin (npDivQ q ((count (vt1 I) SHRUB (I.g.firstRing c) : ℚ) * I.p.INg)) I.p.Pemaxg

/-- Pest, lines 274 to 279: the probability of the candidate type drawn
for the cell, Peg or min(Phi_sh, Pemaxsh) or min(Phi_tr, Pemaxtr). -/
def pest {n : ℕ} (I : Input n) (c : Fin n) : NpVal :=
  match I.d.select c with
  | EstPick.grass => peg I c
  | EstPick.shrubSeed => NpVal.finite (min (phiSh I c) I.p.Pemaxsh)
  | EstPick.treeSeed => NpVal.finite (min (phiTr I c) I.p.Pemaxtr)

/-- The label written on successful establishment: the drawn candidate
type itself (Select_PFT_E values GRASS, SHRUBSEEDLING, TREESEEDLING). -/
def estLabel : EstPick → ℤ
  | EstPick.grass => GRASS
  | EstPick.shrubSeed => SHRUBSEEDLING
  | EstPick.treeSeed => TREESEEDLING

/-- Lines 281 to 283: a bare cell establishes when Pest is greater than
or equal to its draw R_Est (comparisons with NaN are false). -/
def establishes {n : ℕ} (I : Input n) (c : Fin n) : Bool :=
  decide (vt1 I c = BARE) && npGe (pest I c) (I.d.rEst c)

/-- Labels after the establishment phase, line 284. -/
def vt2 {n : ℕ} (I : Input n) (c : Fin n) : ℤ :=
  if establishes I c then estLabel (I.d.select c) else vt1 I c

/-- Ages after the establishment phase, line 285: established cells are
reset to 0. -/
def tp2 {n : ℕ} (I : Input n) (c : Fin n) : ℚ :=
  if establishes I c then 0 else tp1 I c

/-- Theta, lines 290 to 292: the drought-resistance threshold selected by
np.choose on the label.  np.choose raises on a label outside 0..5; the
theorems below only consult this table at valid labels, and the junk
value 0 on other labels is never reached by them. -/
def thetaOf (p : Params) (v : ℤ) : ℚ :=
  if v = GRASS then p.th_g
  else if v = SHRUB then p.th_sh
  else if v = TREE then p.th_tr
  else if v = BARE then 0
  else if v = SHRUBSEEDLING then p.th_sh_s
  else if v = TREESEEDLING then p.th_tr_s
  else 0

/-- tpmax, lines 295 to 297: the maximum age selected by np.choose on
the label; the grass entry is the literal sentinel 200000. -/
def tpmaxOf (p : Params) (v : ℤ) : ℚ :=
  if v = GRASS then 200000
  else if v = SHRUB then p.tpmax_sh
  else if v = TREE then p.tpmax_tr
  else if v = BARE then 0
  else if v = SHRUBSEEDLING then p.tpmax_sh_s
  else if v = TREESEEDLING then p.tpmax_tr_s
  else 0

/-- PMb, lines 303 to 305: the background mortality probability selected
by np.choose on the label. -/
def pmbOf (p : Params) (v : ℤ) : ℚ :=
  if v = GRASS then p.Pmb_g
  else if v = SHRUB then p.Pmb_sh
  else if v = TREE then p.Pmb_tr
  else if v = BARE then 0
  else if v = SHRUBSEEDLING then p.Pmb_sh_s
  else if v = TREESEEDLING then p.Pmb_tr_s
  else 0

/-- PMa, lines 298 to 302: zero unless the age exceeds half the maximum
age, in which case it is (tp - tpmax/2) / (tpmax/2) - 1.  When tpmax = 0
and tp is above tpmax/2 = 0 the numerator tp - 0 is positive, so numpy
produces +inf there, encoded none. -/
def agePMa (tp tpmax : ℚ) : Option ℚ :=
  if tpmax / 2 < tp then
    (if tpmax = 0 then none else some ((tp - tpmax / 2) / (tpmax / 2) - 1))
  else some 0

/-- PM for one occupied cell, lines 293, 294 and 306, 307: the drought
deficit is zeroed from below, the sum PMd + PMa + PMb is clamped from
above at 1 (PM[PM greater than 1] = 1), and nothing clamps it from
below.  A +inf age deficit is clamped to 1 as well. -/
def mortProb (ws θ pmb tp tpmax : ℚ) : ℚ :=
  match agePMa tp tpmax with
  | some a => min 1 (max 0 (ws - θ) + a + pmb)
  | none => 1

/-- The mortality probability of a cell within update, computed from the
post-establishment label and age (lines 288 to 307). -/
def pm {n : ℕ} (I : Input n) (c : Fin n) : ℚ :=
  mortProb (I.s.cumWS c) (thetaOf I.p (vt2 I c)) (pmbOf I.p (vt2 I c))
    (tp2 I c) (tpmaxOf I.p (vt2 I c))

/-- Lines 308 and 309: an occupied cell dies when its PM is greater than
or equal to its draw R_Mor. -/
def dies {n : ℕ} (I : Input n) (c : Fin n) : Bool :=
  decide (¬ vt2 I c = BARE) && decide (I.d.rMor c ≤ pm I c)

/-- Labels after the mortality phase, line 310. -/
def vt3 {n : ℕ} (I : Input n) (c : Fin n) : ℤ :=
  if dies I c then BARE else vt2 I c

/-- Ages after the mortality phase, line 311: dead cells are reset to 0. -/
def tp3 {n : ℕ} (I : Input n) (c : Fin n) : ℚ :=
  if dies I c then 0 else tp2 I c

/-- One full update call: final labels and ages (the age array is written
back to the store at line 313, the label array was mutated in place).
The water-stress input field is read-only. -/
def update {n : ℕ} (I : Input n) : State n :=
  { vegType := fun c => vt3 I c, age := fun c => tp3 I c, cumWS := I.s.cumWS }

/-- Modelled from the spec: the NeighborhoodProvider is an external
collaborator (spec sections 2 and 6) whose code is not part of this
component, and any of its calls may fail.  updateE runs update with a
provider that either answers (providerOk = true) or raises at the
first-ring lookup of line 257 (providerOk = false).  By lines 233 to 251
of the source, at that point the stored label array has already been
mutated in place by the maturation phase, while self.tp is a fresh array
that is only committed to the store at line 313; so on failure the
observable store holds the maturation labels and the original ages.
The Bool component records whether the call completed. -/
def updateE {n : ℕ} (I : Input n) (providerOk : Bool) : Bool × State n :=
  if providerOk then (true, update I)
  else (false, { vegType := fun c => vt1 I c, age := I.s.age, cumWS := I.s.cumWS })

/-- A label is one of the six valid enum values. -/
def validLabel (v : ℤ) : Prop :=
  v = GRASS ∨ v = SHRUB ∨ v = TREE ∨ v = BARE ∨ v = SHRUBSEEDLING ∨ v = TREESEEDLING

instance validLabel.decPred : DecidablePred validLabel := fun v => by
  unfold validLabel
  infer_instance

/-- Pest is below 1 in the numpy order: a finite value below 1, -inf or
NaN (+inf is not below 1). -/
def npBelow1 : NpVal → Bool
  | NpVal.finite q => decide (q < 1)
  | NpVal.pinf => false
  | NpVal.ninf => true
  | NpVal.nan => true

end VegCA

namespace VegCA

/-- The default constructor parameters of VegCA. -/
def P0 : Params :=
  { Pemaxg := 7/20, INg := 2, th_g := 62/100, Pmb_g := 1/20,
    Pemaxsh := 1/5, th_sh := 4/5, Pmb_sh := 1/100, tpmax_sh := 600,
    Pemaxtr := 1/4, th_tr := 72/100, Pmb_tr := 1/100, tpmax_tr := 350,
    th_sh_s := 64/100, Pmb_sh_s := 3/100, tpmax_sh_s := 18,
    th_tr_s := 64/100, Pmb_tr_s := 3/100, tpmax_tr_s := 18 }

/-- One shrub cell of age 300 on a one-cell grid, stress free, with zero
shrub drought threshold and zero shrub background mortality; after the
age advance its age 301 is just past half the maximum age 600. -/
def IC1 : Input 1 :=
  { p := { P0 with th_sh := 0, Pmb_sh := 0 },
    g := { firstRing := fun _ => [], secondRing := fun _ => [] },
    te := 1,
    d := { select := fun _ => EstPick.shrubSeed, rEst := fun _ => 1, rMor := fun _ => 1 },
    s := { vegType := fun _ => SHRUB, age := fun _ => 300, cumWS := fun _ => 0 } }

/-- One grass cell of age 149999 on a one-cell grid, stress free, default
parameters; after the age advance its age 150000 exceeds half the grass
sentinel maximum age 200000. -/
def IC4 : Input 1 :=
  { p := P0,
    g := { firstRing := fun _ => [], secondRing := fun _ => [] },
    te := 1,
    d := { select := fun _ => EstPick.grass, rEst := fun _ => 1, rMor := fun _ => 1 },
    s := { vegType := fun _ => GRASS, age := fun _ => 149999, cumWS := fun _ => 0 } }

/-- One grass cell of age 5 on a one-cell grid, stress free, default
parameters. -/
def IW4 : Input 1 :=
  { p := P0,
    g := { firstRing := fun _ => [], secondRing := fun _ => [] },
    te := 1,
    d := { select := fun _ => EstPick.grass, rEst := fun _ => 1, rMor := fun _ => 1 },
    s := { vegType := fun _ => GRASS, age := fun _ => 5, cumWS := fun _ => 0 } }

/-- One shrub seedling of age 18 on a one-cell grid: after the age
advance by one year its age 19 strictly exceeds the seedling maximum age
18, so it matures. -/
def IW6 : Input 1 :=
  { p := P0,
    g := { firstRing := fun _ => [], secondRing := fun _ => [] },
    te := 1,
    d := { select := fun _ => EstPick.grass, rEst := fun _ => 1, rMor := fun _ => 1 },
    s := { vegType := fun _ => SHRUBSEEDLING, age := fun _ => 18, cumWS := fun _ => 0 } }

/-- One shrub seedling whose age 19 already exceeds the seedling maximum
age 18 before the step; time_elapsed is 0. -/
def IC3 : Input 1 :=
  { p := P0,
    g := { firstRing := fun _ => [], secondRing := fun _ => [] },
    te := 0,
    d := { select := fun _ => EstPick.grass, rEst := fun _ => 1, rMor := fun _ => 1 },
    s := { vegType := fun _ => SHRUBSEEDLING, age := fun _ => 19, cumWS := fun _ => 0 } }

/-- Two cells: cell 0 bare with first ring consisting of cell 1 only, and
cell 1 grass under full water stress, so the grid-wide grass vigor mean
is 0 and cell 0 has no shrub neighbor. -/
def IC5 : Input 2 :=
  { p := P0,
    g := { firstRing := fun _ => [1], secondRing := fun _ => [] },
    te := 1,
    d := { select := fun _ => EstPick.grass, rEst := fun _ => 1, rMor := fun _ => 1 },
    s := { vegType := fun c => if c.val = 0 then BARE else GRASS,
           age := fun _ => 0,
           cumWS := fun c => if c.val = 0 then 0 else 1 } }

/-- Two cells: cell 0 bare with first ring consisting of cell 1 only, and
cell 1 grass free of water stress, so the grid-wide grass vigor mean is 1
and cell 0 has no shrub neighbor. -/
def IW5 : Input 2 :=
  { p := P0,
    g := { firstRing := fun _ => [1], secondRing := fun _ => [] },
    te := 1,
    d := { select := fun _ => EstPick.grass, rEst := fun _ => 1, rMor := fun _ => 1 },
    s := { vegType := fun c => if c.val = 0 then BARE else GRASS,
           age := fun _ => 0,
           cumWS := fun _ => 0 } }

/-- One bare cell on a one-cell grid with no grass anywhere, with the
candidate-type draw set to grass and an establishment draw of 0. -/
def IW10 : Input 1 :=
  { p := P0,
    g := { firstRing := fun _ => [], secondRing := fun _ => [] },
    te := 1,
    d := { select := fun _ => EstPick.grass, rEst := fun _ => 0, rMor := fun _ => 1 },
    s := { vegType := fun _ => BARE, age := fun _ => 0, cumWS := fun _ => 0 } }

/-- One grass cell of age 5, stress free, on a one-cell grid. -/
def IW8 : Input 1 :=
  { p := P0,
    g := { firstRing := fun _ => [], secondRing := fun _ => [] },
    te := 1,
    d := { select := fun _ => EstPick.treeSeed, rEst := fun _ => 1, rMor := fun _ => 1 },
    s := { vegType := fun _ => GRASS, age := fun _ => 5, cumWS := fun _ => 0 } }

/-- One grass cell of age 5, stress free, with both draws equal to 1: it
undergoes no maturation, no establishment and no mortality. -/
def IW9 : Input 1 :=
  { p := P0,
    g := { firstRing := fun _ => [], secondRing := fun _ => [] },
    te := 1,
    d := { select := fun _ => EstPick.shrubSeed, rEst := fun _ => 1, rMor := fun _ => 1 },
    s := { vegType := fun _ => GRASS, age := fun _ => 5, cumWS := fun _ => 0 } }

/-- One shrub seedling whose age 19 already exceeds the seedling maximum
age 18, with time_elapsed 0 and every draw equal to 1: maturation still
relabels it. -/
def IC2 : Input 1 :=
  { p := P0,
    g := { firstRing := fun _ => [], secondRing := fun _ => [] },
    te := 0,
    d := { select := fun _ => EstPick.grass, rEst := fun _ => 1, rMor := fun _ => 1 },
    s := { vegType := fun _ => SHRUBSEEDLING, age := fun _ => 19, cumWS := fun _ => 0 } }

/-- One grass cell of age 5 with time_elapsed 0 and every draw equal to
1, whose establishment and mortality probabilities stay below 1 and whose
age is below the seedling caps. -/
def IW2 : Input 1 :=
  { p := P0,
    g := { firstRing := fun _ => [], secondRing := fun _ => [] },
    te := 0,
    d := { select := fun _ => EstPick.shrubSeed, rEst := fun _ => 1, rMor := fun _ => 1 },
    s := { vegType := fun _ => GRASS, age := fun _ => 5, cumWS := fun _ => 0 } }

end VegCA

namespace VegCA

/-- Claim C1 counterexample: in the step on IC1 the (occupied) shrub cell
gets mortality probability 1/300 - 1, which is negative: the computed
MortalityProbability is not in [0,1]. -/
theorem c1_counterexample : vt2 IC1 0 ≠ BARE ∧ pm IC1 0 < 0 := by
  have hest : establishes IC1 0 = false := by decide
  have hvt2 : vt2 IC1 0 = SHRUB := by
    simp only [vt2, hest, Bool.false_eq_true, if_false]
    decide
  have htp2 : tp2 IC1 0 = 301 := by
    simp only [tp2, hest, Bool.false_eq_true, if_false, tp1]
    norm_num [IC1, P0, SHRUB, SHRUBSEEDLING, TREESEEDLING]
  constructor
  · rw [hvt2]; decide
  · rw [pm, hvt2, htp2]
    norm_num [IC1, P0, mortProb, agePMa, thetaOf, pmbOf, tpmaxOf,
      GRASS, SHRUB, TREE, BARE, SHRUBSEEDLING, TREESEEDLING, min_def, max_def]

/-- Claim C1 (amended): the mortality probability computed during a step
for any cell is clamped from above at 1, but only from above: the code
zeroes negative drought deficits and caps the final sum at 1, and a
negative age-deficit term can drive the sum below 0 (see the
counterexample), so the probability need not be nonnegative. -/
theorem c1_mortality_clamped_above : ∀ (n : ℕ) (I : Input n) (c : Fin n), pm I c ≤ 1 := by
  intro n I c
  unfold pm mortProb
  split
  · exact min_le_left _ _
  · exact le_refl 1

/-- Claim C7 (confirmed): mortProb, the mortality probability of the
code as a function of the cumulative water stress of the cell with every
other quantity fixed, is monotonically non-decreasing in the stress. -/
theorem c7_mortality_monotone (ws1 ws2 θ pmb tp tpmax : ℚ) (h : ws1 ≤ ws2) :
    mortProb ws1 θ pmb tp tpmax ≤ mortProb ws2 θ pmb tp tpmax := by
  unfold mortProb
  split
  · exact min_le_min (le_refl 1)
      (add_le_add_right (add_le_add_right
        (max_le_max (le_refl 0) (sub_le_sub_right h θ)) _) _)
  · exact le_refl 1

/-- Witness for C7 at concrete inputs: stress 0 versus stress 1/2 for a
shrub-like cell. -/
theorem c7_witness : mortProb 0 0 0 5 600 ≤ mortProb (1/2) 0 0 5 600 :=
  c7_mortality_monotone 0 (1/2) 0 0 5 600 (by norm_num)

end VegCA

namespace VegCA

/-- Claim C4 counterexample: a grass cell of advanced age 150000 (above
half the sentinel maximum age 200000 that the code assigns to grass) gets
the age-deficit value -1/2 in the mortality computation, not 0. -/
theorem c4_counterexample :
    vt2 IC4 0 = GRASS ∧ agePMa (tp2 IC4 0) (tpmaxOf IC4.p (vt2 IC4 0)) ≠ some 0 := by
  have hest : establishes IC4 0 = false := by decide
  have hvt2 : vt2 IC4 0 = GRASS := by
    simp only [vt2, hest, Bool.false_eq_true, if_false]
    decide
  have htp2 : tp2 IC4 0 = 150000 := by
    simp only [tp2, hest, Bool.false_eq_true, if_false, tp1]
    norm_num [IC4, P0, GRASS, SHRUBSEEDLING, TREESEEDLING]
  refine ⟨hvt2, ?_⟩
  rw [hvt2, htp2]
  norm_num [agePMa, tpmaxOf, IC4, P0, GRASS, SHRUB, TREE, BARE, SHRUBSEEDLING, TREESEEDLING]

/-- Claim C4 (amended): for every grass cell the age-deficit term of the
mortality probability is 0 as long as the age does not exceed 100000,
half of the 200000-year sentinel maximum age the code gives grass; the
code does not make the deficit identically zero for grass, so above that
sentinel midpoint it is nonzero (see the counterexample). -/
theorem c4_grass_age_deficit_zero (n : ℕ) (I : Input n) (c : Fin n)
    (hg : vt2 I c = GRASS) (ha : tp2 I c ≤ 100000) :
    agePMa (tp2 I c) (tpmaxOf I.p (vt2 I c)) = some 0 := by
  rw [hg]
  have ht : tpmaxOf I.p GRASS = 200000 := by simp [tpmaxOf]
  rw [ht]
  unfold agePMa
  rw [if_neg]
  rw [not_lt]
  calc (tp2 I c) ≤ 100000 := ha
    _ = (200000 : ℚ) / 2 := by norm_num

/-- Witness for C4 at a concrete input: the grass cell of IW4 with
advanced age 6 has age deficit 0. -/
theorem c4_witness : agePMa (tp2 IW4 0) (tpmaxOf IW4.p (vt2 IW4 0)) = some 0 := by
  have hest : establishes IW4 0 = false := by decide
  exact c4_grass_age_deficit_zero 1 IW4 0
    (by simp only [vt2, hest, Bool.false_eq_true, if_false]; decide)
    (by simp only [tp2, hest, Bool.false_eq_true, if_false, tp1]
        norm_num [IW4, P0, GRASS, SHRUBSEEDLING, TREESEEDLING])

/-- Claim C6 (confirmed): in the maturation phase of update, a shrub
seedling (resp. tree seedling) whose advanced age strictly exceeds the
seedling maximum age is relabeled SHRUB (resp. TREE) with age reset to
0, and a seedling whose advanced age is at most the seedling maximum age
keeps its seedling label. -/
theorem c6_maturation (n : ℕ) (I : Input n) (c : Fin n) :
    ((I.s.vegType c = SHRUBSEEDLING ∧ I.p.tpmax_sh_s < I.s.age c + I.te) →
      vt1 I c = SHRUB ∧ tp1 I c = 0) ∧
    ((I.s.vegType c = TREESEEDLING ∧ I.p.tpmax_tr_s < I.s.age c + I.te) →
      vt1 I c = TREE ∧ tp1 I c = 0) ∧
    ((I.s.vegType c = SHRUBSEEDLING ∧ I.s.age c + I.te ≤ I.p.tpmax_sh_s) →
      vt1 I c = SHRUBSEEDLING) ∧
    ((I.s.vegType c = TREESEEDLING ∧ I.s.age c + I.te ≤ I.p.tpmax_tr_s) →
      vt1 I c = TREESEEDLING) := by
  refine ⟨?_, ?_, ?_, ?_⟩
  · rintro ⟨h1, h2⟩
    constructor
    · unfold vt1
      rw [if_pos ⟨h1, h2⟩]
    · unfold tp1
      rw [if_pos (Or.inl ⟨h1, h2⟩)]
  · rintro ⟨h1, h2⟩
    have hA : ¬ (I.s.vegType c = SHRUBSEEDLING ∧ I.p.tpmax_sh_s < I.s.age c + I.te) := by
      rintro ⟨ha, -⟩
      rw [h1] at ha
      exact absurd ha (by decide)
    constructor
    · unfold vt1
      rw [if_neg hA, if_pos ⟨h1, h2⟩]
    · unfold tp1
      rw [if_pos (Or.inr ⟨h1, h2⟩)]
  · rintro ⟨h1, h2⟩
    have hA : ¬ (I.s.vegType c = SHRUBSEEDLING ∧ I.p.tpmax_sh_s < I.s.age c + I.te) := by
      rintro ⟨-, hlt⟩
      exact absurd hlt (not_lt.mpr h2)
    have hB : ¬ (I.s.vegType c = TREESEEDLING ∧ I.p.tpmax_tr_s < I.s.age c + I.te) := by
      rintro ⟨hb, -⟩
      rw [h1] at hb
      exact absurd hb (by decide)
    unfold vt1
    rw [if_neg hA, if_neg hB]
    exact h1
  · rintro ⟨h1, h2⟩
    have hA : ¬ (I.s.vegType c = SHRUBSEEDLING ∧ I.p.tpmax_sh_s < I.s.age c + I.te) := by
      rintro ⟨ha, -⟩
      rw [h1] at ha
      exact absurd ha (by decide)
    have hB : ¬ (I.s.vegType c = TREESEEDLING ∧ I.p.tpmax_tr_s < I.s.age c + I.te) := by
      rintro ⟨-, hlt⟩
      exact absurd hlt (not_lt.mpr h2)
    unfold vt1
    rw [if_neg hA, if_neg hB]
    exact h1

/-- Witness for C6 at a concrete input: the shrub seedling of IW6, of
advanced age 19 against cap 18, is relabeled SHRUB with age 0. -/
theorem c6_witness : vt1 IW6 0 = SHRUB ∧ tp1 IW6 0 = 0 :=
  (c6_maturation 1 IW6 0).1 ⟨by decide, by norm_num [IW6, P0]⟩

/-- Claim C3 counterexample: on IC3 a step interrupted by a failure of
the external neighborhood lookup reports the error but leaves the stored
label array already mutated: the over-age shrub seedling was relabeled
SHRUB in place by the maturation phase before the failing call, so the
VegetationState is not left as it was. -/
theorem c3_counterexample :
    (updateE IC3 false).1 = false ∧ (updateE IC3 false).2.vegType 0 ≠ IC3.s.vegType 0 := by
  have h1 : vt1 IC3 0 = SHRUB := by
    norm_num [vt1, IC3, P0, SHRUB, SHRUBSEEDLING, TREESEEDLING]
  constructor
  · simp [updateE]
  · show ¬ (updateE IC3 false).2.vegType 0 = IC3.s.vegType 0
    simp only [updateE, Bool.false_eq_true, if_false, h1]
    decide

/-- Claim C3 (amended): the step is not atomic.  When an error is raised
at the neighborhood lookup, the stored age array is exactly as before the
call (it is only committed at the end of update), but the stored label
array holds the maturation-phase labels vt1, which may already differ
from the labels before the call (see the counterexample). -/
theorem c3_partial_state (n : ℕ) (I : Input n) (c : Fin n) :
    (updateE I false).2.age c = I.s.age c ∧ (updateE I false).2.vegType c = vt1 I c := by
  simp [updateE]

end VegCA

namespace VegCA

/-- A filter with a pointwise-false predicate is empty. -/
theorem filter_false_nil {α : Type} (p : α → Bool) (l : List α)
    (h : ∀ a, p a = false) : l.filter p = [] := by
  induction l with
  | nil => rfl
  | cons x xs ih => simp [List.filter_cons, h x, ih]

/-- An occupied cell whose mortality probability is below its draw does
not die. -/
theorem dies_eq_false_of_lt {n : ℕ} (I : Input n) (c : Fin n)
    (h : pm I c < I.d.rMor c) : dies I c = false := by
  unfold dies
  rw [decide_eq_false (not_le.mpr h), Bool.and_false]

/-- Claim C5 counterexample: on IC5, cell 0 is bare with zero shrub
neighbors in its first ring, yet its computed grass establishment
probability is NaN, not the type maximum Pemaxg: the grass vigor mean is
0, so the inhibition term is 0/0. -/
theorem c5_counterexample :
    vt1 IC5 0 = BARE ∧ count (vt1 IC5) SHRUB (IC5.g.firstRing 0) = 0 ∧
      peg IC5 0 = NpVal.nan ∧ peg IC5 0 ≠ NpVal.finite IC5.p.Pemaxg := by
  have hgs : (List.finRange 2).filter (fun c => decide (vt1 IC5 c = GRASS)) = [1] := by
    decide
  have hphi : phiG IC5 = some 0 := by
    simp only [phiG, hgs]
    norm_num [liveIndex, IC5]
  have hcount : count (vt1 IC5) SHRUB (IC5.g.firstRing 0) = 0 := by decide
  have hpeg : peg IC5 0 = NpVal.nan := by
    simp only [peg, hphi, hcount]
    norm_num [npDivQ, npMin]
  refine ⟨by decide, hcount, hpeg, ?_⟩
  rw [hpeg]
  decide

/-- Claim C5 (amended): for a bare cell with zero first-ring shrub
neighbors, the division by zero raises no error, and whenever the
grid-wide grass vigor mean Phi_g is a positive (finite) number the
computed grass establishment probability equals the type maximum Pemaxg
(no inhibition); but when Phi_g is 0 or NaN the probability is NaN
rather than Pemaxg (see the counterexample), so the unconditional claim
fails. -/
theorem c5_no_shrub_no_inhibition (n : ℕ) (I : Input n) (c : Fin n)
    (hb : vt1 I c = BARE)
    (hn : count (vt1 I) SHRUB (I.g.firstRing c) = 0)
    (q : ℚ) (hq : phiG I = some q) (hpos : 0 < q) :
    peg I c = NpVal.finite I.p.Pemaxg := by
  simp only [peg, hq, hn]
  rw [show ((0 : ℕ) : ℚ) * I.p.INg = 0 by simp]
  rw [npDivQ, if_pos rfl, if_pos hpos]
  rfl

/-- Witness for C5 at a concrete input: on IW5 the grass vigor mean is 1
and bare cell 0 has no shrub neighbor, so its grass establishment
probability is the maximum Pemaxg. -/
theorem c5_witness : peg IW5 0 = NpVal.finite IW5.p.Pemaxg := by
  have hgs : (List.finRange 2).filter (fun c => decide (vt1 IW5 c = GRASS)) = [1] := by
    decide
  have hphi : phiG IW5 = some 1 := by
    simp only [phiG, hgs]
    norm_num [liveIndex, IW5]
  exact c5_no_shrub_no_inhibition 2 IW5 0 (by decide) (by decide) 1 hphi (by norm_num)

/-- Claim C10 (confirmed): if no cell is labeled grass at the start of
the establishment phase, then after the establishment phase still no
cell is labeled grass: the grass vigor mean over the empty selection is
NaN, the resulting grass establishment probability is NaN, and NaN
satisfies no greater-or-equal comparison, so no bare cell establishes as
grass. -/
theorem c10_no_grass_establishment (n : ℕ) (I : Input n)
    (hg : ∀ x : Fin n, vt1 I x ≠ GRASS) : ∀ c : Fin n, vt2 I c ≠ GRASS := by
  have hphi : phiG I = none := by
    have hnil : (List.finRange n).filter (fun c => decide (vt1 I c = GRASS)) = [] :=
      filter_false_nil _ _ (fun a => decide_eq_false (hg a))
    simp only [phiG, hnil]
    rfl
  intro c
  unfold vt2
  by_cases h : establishes I c = true
  · rw [if_pos h]
    cases hsel : I.d.select c
    · exfalso
      unfold establishes at h
      have hpest : pest I c = NpVal.nan := by
        simp only [pest, hsel, peg, hphi]
      rw [hpest] at h
      simp [npGe] at h
    · decide
    · decide
  · rw [if_neg h]
    exact hg c

/-- Witness for C10 at a concrete input: the grassless one-cell grid of
IW10, whose single bare cell draws candidate type grass with draw 0, does
not hold grass after the establishment phase. -/
theorem c10_witness : vt2 IW10 0 ≠ GRASS :=
  c10_no_grass_establishment 1 IW10 (by decide) 0

end VegCA

namespace VegCA

/-- Claim C8 (confirmed): after an update call every cell carries one of
the six valid labels, provided every label was valid before: the step
only ever writes the constants BARE, SHRUB, TREE or a drawn candidate
label GRASS, SHRUBSEEDLING, TREESEEDLING, and otherwise keeps the
previous label. -/
theorem c8_label_closure (n : ℕ) (I : Input n)
    (hv : ∀ x : Fin n, validLabel (I.s.vegType x)) (c : Fin n) :
    validLabel ((update I).vegType c) := by
  show validLabel (vt3 I c)
  unfold vt3
  split
  · decide
  · unfold vt2
    split
    · cases I.d.select c
      · decide
      · decide
      · decide
    · unfold vt1
      split
      · decide
      · split
        · decide
        · exact hv c

/-- Witness for C8 at a concrete input: after a step on the one-cell
grass grid IW8 the cell still carries a valid label. -/
theorem c8_witness : validLabel ((update IW8).vegType 0) :=
  c8_label_closure 1 IW8 (by decide) 0

/-- Claim C9 (confirmed): a cell that undergoes neither maturation nor
establishment nor mortality in a step ends the step with its age advanced
by exactly time_elapsed and its label unchanged. -/
theorem c9_frame (n : ℕ) (I : Input n) (c : Fin n)
    (hm : ¬ ((I.s.vegType c = SHRUBSEEDLING ∧ I.p.tpmax_sh_s < I.s.age c + I.te) ∨
      (I.s.vegType c = TREESEEDLING ∧ I.p.tpmax_tr_s < I.s.age c + I.te)))
    (he : establishes I c = false)
    (hd : dies I c = false) :
    (update I).age c = I.s.age c + I.te ∧ (update I).vegType c = I.s.vegType c := by
  have h1 : vt1 I c = I.s.vegType c := by
    unfold vt1
    rw [if_neg (fun h => hm (Or.inl h)), if_neg (fun h => hm (Or.inr h))]
  have h2 : tp1 I c = I.s.age c + I.te := by
    unfold tp1
    rw [if_neg hm]
  constructor
  · show tp3 I c = _
    simp only [tp3, hd, Bool.false_eq_true, if_false]
    simp only [tp2, he, Bool.false_eq_true, if_false]
    exact h2
  · show vt3 I c = _
    simp only [vt3, hd, Bool.false_eq_true, if_false]
    simp only [vt2, he, Bool.false_eq_true, if_false]
    exact h1

/-- Witness for C9 at a concrete input: the grass cell of IW9 matures,
establishes and dies in no way, so its age advances from 5 to 6 and its
label stays GRASS. -/
theorem c9_witness :
    (update IW9).age 0 = IW9.s.age 0 + IW9.te ∧ (update IW9).vegType 0 = IW9.s.vegType 0 := by
  have hest : establishes IW9 0 = false := by decide
  have hvt2 : vt2 IW9 0 = GRASS := by
    simp only [vt2, hest, Bool.false_eq_true, if_false]
    decide
  have htp2 : tp2 IW9 0 = 6 := by
    simp only [tp2, hest, Bool.false_eq_true, if_false, tp1]
    norm_num [IW9, P0, GRASS, SHRUBSEEDLING, TREESEEDLING]
  have hpm : pm IW9 0 = 1 / 20 := by
    rw [pm, hvt2, htp2]
    norm_num [mortProb, agePMa, thetaOf, pmbOf, tpmaxOf, IW9, P0,
      GRASS, SHRUB, TREE, BARE, SHRUBSEEDLING, TREESEEDLING, min_def, max_def]
  exact c9_frame 1 IW9 0 (by decide) hest
    (dies_eq_false_of_lt IW9 0 (by rw [hpm]; norm_num [IW9]))

end VegCA

namespace VegCA

/-- Claim C2 counterexample: on IC2 time_elapsed is 0 and both draws are
1, yet the step changes the label of cell 0: the shrub seedling whose age
19 already exceeds the seedling maximum age 18 is matured to SHRUB by
the deterministic maturation phase, which consults no draw. -/
theorem c2_counterexample :
    IC2.te = 0 ∧ IC2.d.rEst 0 = 1 ∧ IC2.d.rMor 0 = 1 ∧
      (update IC2).vegType 0 ≠ IC2.s.vegType 0 := by
  have h1 : vt1 IC2 0 = SHRUB := by
    norm_num [vt1, IC2, P0, SHRUB, SHRUBSEEDLING, TREESEEDLING]
  have htp1 : tp1 IC2 0 = 0 := by
    norm_num [tp1, IC2, P0, SHRUBSEEDLING, TREESEEDLING]
  have hest : establishes IC2 0 = false := by
    unfold establishes
    rw [decide_eq_false (by rw [h1]; decide : ¬ vt1 IC2 0 = BARE), Bool.false_and]
  have hvt2 : vt2 IC2 0 = SHRUB := by
    simp only [vt2, hest, Bool.false_eq_true, if_false]
    exact h1
  have htp2 : tp2 IC2 0 = 0 := by
    simp only [tp2, hest, Bool.false_eq_true, if_false]
    exact htp1
  have hpm : pm IC2 0 = 1 / 100 := by
    rw [pm, hvt2, htp2]
    norm_num [mortProb, agePMa, thetaOf, pmbOf, tpmaxOf, IC2, P0,
      GRASS, SHRUB, TREE, BARE, SHRUBSEEDLING, TREESEEDLING, min_def, max_def]
  have hd : dies IC2 0 = false :=
    dies_eq_false_of_lt IC2 0 (by rw [hpm]; norm_num [IC2])
  refine ⟨rfl, rfl, rfl, ?_⟩
  show ¬ vt3 IC2 0 = IC2.s.vegType 0
  simp only [vt3, hd, Bool.false_eq_true, if_false, hvt2]
  decide

/-- Claim C2 (amended): a step with time_elapsed 0 and every draw equal
to 1 leaves every label and every age unchanged, provided additionally
that no seedling already has age above its seedling maximum age (else the
deterministic maturation relabels it regardless of the draws), that every
establishment probability computed for a bare cell is below 1 in the
numpy order (else Pest is greater than or equal to the draw 1), and that
every mortality probability computed for an occupied cell (the code
evaluates PM only over plant_cells, the cells not bare after
establishment, line 288) is below 1 (else the clamp makes PM equal to 1,
which is greater than or equal to the draw 1). -/
theorem c2_conditional_noop (n : ℕ) (I : Input n)
    (hte : I.te = 0)
    (hrE : ∀ x : Fin n, I.d.rEst x = 1)
    (hrM : ∀ x : Fin n, I.d.rMor x = 1)
    (hseed : ∀ x : Fin n,
      (I.s.vegType x = SHRUBSEEDLING → I.s.age x ≤ I.p.tpmax_sh_s) ∧
      (I.s.vegType x = TREESEEDLING → I.s.age x ≤ I.p.tpmax_tr_s))
    (hbelow : ∀ x : Fin n, vt1 I x = BARE → npBelow1 (pest I x) = true)
    (hmor : ∀ x : Fin n, vt2 I x ≠ BARE → pm I x < 1) :
    ∀ c : Fin n, (update I).vegType c = I.s.vegType c ∧ (update I).age c = I.s.age c := by
  intro c
  have hA : ¬ (I.s.vegType c = SHRUBSEEDLING ∧ I.p.tpmax_sh_s < I.s.age c + I.te) := by
    rintro ⟨h1, h2⟩
    rw [hte, add_zero] at h2
    exact absurd h2 (not_lt.mpr ((hseed c).1 h1))
  have hB : ¬ (I.s.vegType c = TREESEEDLING ∧ I.p.tpmax_tr_s < I.s.age c + I.te) := by
    rintro ⟨h1, h2⟩
    rw [hte, add_zero] at h2
    exact absurd h2 (not_lt.mpr ((hseed c).2 h1))
  have h1 : vt1 I c = I.s.vegType c := by
    unfold vt1
    rw [if_neg hA, if_neg hB]
  have h2 : tp1 I c = I.s.age c := by
    unfold tp1
    rw [if_neg (by rintro (h | h); exacts [hA h, hB h])]
    rw [hte, add_zero]
  have hest : establishes I c = false := by
    unfold establishes
    by_cases hb : vt1 I c = BARE
    · have hlt := hbelow c hb
      have hge : npGe (pest I c) (I.d.rEst c) = false := by
        rw [hrE c]
        cases hp : pest I c
        · rw [hp] at hlt
          simp only [npBelow1, decide_eq_true_eq] at hlt
          simp only [npGe, decide_eq_false_iff_not, not_le]
          exact hlt
        · rw [hp] at hlt
          simp [npBelow1] at hlt
        · rfl
        · rfl
      rw [hge, Bool.and_false]
    · rw [decide_eq_false hb, Bool.false_and]
  have hvt2 : vt2 I c = I.s.vegType c := by
    simp only [vt2, hest, Bool.false_eq_true, if_false]
    exact h1
  have htp2 : tp2 I c = I.s.age c := by
    simp only [tp2, hest, Bool.false_eq_true, if_false]
    exact h2
  have hd : dies I c = false := by
    by_cases hb2 : vt2 I c = BARE
    · unfold dies
      rw [decide_eq_false (fun hn => hn hb2), Bool.false_and]
    · exact dies_eq_false_of_lt I c (by rw [hrM c]; exact hmor c hb2)
  constructor
  · show vt3 I c = _
    simp only [vt3, hd, Bool.false_eq_true, if_false]
    exact hvt2
  · show tp3 I c = _
    simp only [tp3, hd, Bool.false_eq_true, if_false]
    exact htp2

/-- Witness for C2 at a concrete input: on the one-cell grass grid IW2,
with time_elapsed 0 and all draws 1, the step changes nothing. -/
theorem c2_witness :
    (update IW2).vegType 0 = IW2.s.vegType 0 ∧ (update IW2).age 0 = IW2.s.age 0 := by
  have hmor : ∀ x : Fin 1, vt2 IW2 x ≠ BARE → pm IW2 x < 1 := by
    intro x hocc
    rw [Fin.eq_zero x]
    have hest : establishes IW2 0 = false := by decide
    have hvt2 : vt2 IW2 0 = GRASS := by
      simp only [vt2, hest, Bool.false_eq_true, if_false]
      decide
    have htp2 : tp2 IW2 0 = 5 := by
      simp only [tp2, hest, Bool.false_eq_true, if_false, tp1]
      norm_num [IW2, P0, GRASS, SHRUBSEEDLING, TREESEEDLING]
    have hpm : pm IW2 0 = 1 / 20 := by
      rw [pm, hvt2, htp2]
      norm_num [mortProb, agePMa, thetaOf, pmbOf, tpmaxOf, IW2, P0,
        GRASS, SHRUB, TREE, BARE, SHRUBSEEDLING, TREESEEDLING, min_def, max_def]
    rw [hpm]
    norm_num
  exact c2_conditional_noop 1 IW2 rfl (fun x => rfl) (fun x => rfl)
    (by intro x; rw [Fin.eq_zero x]; exact ⟨fun h => absurd h (by decide), fun h => absurd h (by decide)⟩)
    (by intro x hb; rw [Fin.eq_zero x] at hb; exact absurd hb (by decide))
    hmor 0

end VegCA
